import Mathlib

/-!
Verification development for the adaptive retrieval-and-reasoning engine of
the agentic-graph-rag-as-a-service repository.

The Python sources embedded here (shallowly, over `ℚ` for Python floats,
`String` for Python strings, `List` for Python lists, `Option`/`Except` for
`None` and raised exceptions) are:

* `src/frontend/src/retrieval/enhanced_agentic_retrieval.py`
  (QueryAnalyzer, StrategySelector, EnhancedAgenticRetrieval),
* `src/frontend/src/retrieval/logical_filter_tool.py` (LogicalFilterTool),
* `src/src/retrieval/enhanced_reasoning_stream.py`
  (ConversationMemory, ReasoningEngine, EnhancedReasoningStream).

Dates, UUIDs and wall-clock processing times are not modelled: id fields are
carried as plain strings (empty where the source generates a UUID) and
`processing_time_ms` fields are fixed to `0`.  External services (ChromaDB,
Neo4j, the LLM) are modelled at their call boundaries as functions supplied
in an environment record; a raised exception from such a call is an
`Except.error`.
-/

namespace AgenticRAG

/-- Python `min` on rationals (`if`-based, as Python computes it).  It agrees
with the lattice `min` on `ℚ` (`ratMin_eq_min` below). -/
def ratMin (a b : ℚ) : ℚ := if a ≤ b then a else b

/-- Model of `np.mean` on a list of floats: sum divided by length.  The
sources only apply it to non-empty lists (the empty case is guarded by
short-circuit `and`); on `[]` this model yields `0`. -/
def npMean (l : List ℚ) : ℚ := l.sum / l.length

/-- Python substring test `needle in hay` on lowered strings and the like:
`strContains hay needle` is true iff `needle` occurs contiguously in `hay`.
Defined on character lists via prefix checks. -/
def containsSub (needle : List Char) : List Char → Bool
  | [] => needle.isEmpty
  | c :: t => needle.isPrefixOf (c :: t) || containsSub needle t

/-- Python `needle in hay` for strings. -/
def strContains (hay needle : String) : Bool :=
  containsSub needle.toList hay.toList

/-- Python `str.lower()`, written over the character list so that it
evaluates by kernel reduction (`String.toLower` itself does not). -/
def pyLower (s : String) : String :=
  String.mk (s.toList.map Char.toLower)

/-- Python `str.strip()`: drop leading and trailing whitespace. -/
def pyStrip (s : String) : String :=
  String.mk
    (((s.toList.dropWhile Char.isWhitespace).reverse.dropWhile
        Char.isWhitespace).reverse)

/-- Accumulator loop behind `pySplit`: the first argument is the reversed
current word. -/
def pySplitAux : List Char → List Char → List String
  | acc, [] => if acc.isEmpty then [] else [String.mk acc.reverse]
  | acc, c :: t =>
      if c.isWhitespace then
        if acc.isEmpty then pySplitAux [] t
        else String.mk acc.reverse :: pySplitAux [] t
      else pySplitAux (c :: acc) t

/-- Python `str.split()`: split on whitespace runs, discarding empty pieces. -/
def pySplit (s : String) : List String :=
  pySplitAux [] s.toList

/-- Enum `RetrievalStrategy` of `enhanced_agentic_retrieval.py`. -/
inductive RetrievalStrategy where
  | vector_only
  | graph_only
  | logical_filter
  | hybrid
  | adaptive
deriving DecidableEq

/-- String `value` of each `RetrievalStrategy` member. -/
def RetrievalStrategy.value : RetrievalStrategy → String
  | .vector_only => "vector_only"
  | .graph_only => "graph_only"
  | .logical_filter => "logical_filter"
  | .hybrid => "hybrid"
  | .adaptive => "adaptive"

/-- Dataclass `RetrievalQuery` (uuid `id` carried as a plain string). -/
structure RetrievalQuery where
  id : String
  text : String
  intent : String
  entities_mentioned : List String
  query_type : String
  complexity_score : ℚ
deriving DecidableEq

/-- Dataclass `RetrievalResult`.  `metadata` dictionaries are modelled as
string association lists. -/
structure RetrievalResult where
  id : String
  content : String
  score : ℚ
  source_type : String
  metadata : List (String × String)
  reasoning : Option String
deriving DecidableEq

/-- One entry of the `reasoning_chain` built by `EnhancedAgenticRetrieval`:
each constructor renders one of the dictionaries the source appends, with
the detail fields the claims inspect. -/
inductive ChainStep where
  | query_analysis (intent : String) (complexity : ℚ)
      (entities : List String) (strategy_selected : String)
  | vector_search_unavailable
  | vector_search
  | vector_results (results_found : Nat)
  | vector_search_error (error : String)
  | graph_search_unavailable
  | graph_search
  | graph_results (results_found : Nat)
  | graph_search_error (error : String)
  | logical_filter_step
  | filter_results (results_found : Nat)
  | hybrid_search
  | hybrid_combination (vector_results graph_results combined_unique : Nat)
  | adaptive_search
  | adaptive_decision (initial_quality : ℚ) (final_count : Nat)
deriving DecidableEq

/-- Dataclass `RetrievalResponse` (`processing_time_ms` fixed to 0, wall
clock not modelled). -/
structure RetrievalResponse where
  query_id : String
  strategy_used : String
  results : List RetrievalResult
  reasoning_chain : List ChainStep
  total_results : Nat
  processing_time_ms : ℚ
  confidence_score : ℚ
deriving DecidableEq

/-- QueryAnalyzer.entity_keywords. -/
def entity_keywords : List String := ["who", "what", "where", "when", "which"]

/-- QueryAnalyzer.relationship_keywords. -/
def relationship_keywords : List String :=
  ["how", "why", "relationship", "connected", "related"]

/-- QueryAnalyzer.filter_keywords. -/
def filter_keywords : List String :=
  ["filter", "where", "having", "with", "without"]

/-- QueryAnalyzer._determine_intent: first matching keyword family wins, in
the order entity, relationship, filter; default `general_search`.  The
argument is the already lowered query text. -/
def determine_intent (query_lower : String) : String :=
  if entity_keywords.any (fun kw => strContains query_lower kw) then
    "entity_lookup"
  else if relationship_keywords.any (fun kw => strContains query_lower kw) then
    "relationship_exploration"
  else if filter_keywords.any (fun kw => strContains query_lower kw) then
    "filtered_search"
  else
    "general_search"

/-- Word test of QueryAnalyzer._extract_entities: `word[0].isupper() and
len(word) > 2`.  `pySplit` never yields an empty word, so the `[]` branch is
unreachable (Python would raise an IndexError there). -/
def entity_word (word : String) : Bool :=
  match word.toList with
  | [] => false
  | c :: _ => c.isUpper && word.length > 2

/-- QueryAnalyzer._extract_entities: capitalized tokens longer than two
characters, in order of appearance. -/
def extract_entities (query_text : String) : List String :=
  (pySplit query_text).filter entity_word

/-- QueryAnalyzer._determine_query_type (argument already lowered). -/
def determine_query_type (query_lower : String) : String :=
  if strContains query_lower "similar" || strContains query_lower "like" then
    "similarity"
  else if strContains query_lower "path" || strContains query_lower "connect" then
    "path_finding"
  else if strContains query_lower "all" || strContains query_lower "list" then
    "comprehensive"
  else
    "targeted"

/-- Logical-operator vocabulary of QueryAnalyzer._calculate_complexity. -/
def logical_ops : List String := ["and", "or", "not", "but", "except"]

/-- Question-word vocabulary of QueryAnalyzer._calculate_complexity. -/
def question_words : List String := ["who", "what", "where", "when", "why", "how"]

/-- QueryAnalyzer._calculate_complexity: capped weighted sum of query length
(0.3), entity count (0.3), logical-operator hits (0.2) and question-word
hits (0.2), the total capped at 1.  Keyword hits are substring tests against
the lowered query. -/
def calculate_complexity (query_text : String) (entities : List String) : ℚ :=
  ratMin ((query_text.length : ℚ) / 200) (3/10)
    + ratMin ((entities.length : ℚ) / 10) (3/10)
    + ratMin (((logical_ops.filter
        (fun op => strContains (pyLower query_text) op)).length : ℚ) / 5) (1/5)
    + ratMin (((question_words.filter
        (fun qw => strContains (pyLower query_text) qw)).length : ℚ) / 3) (1/5)
    |> (fun complexity => ratMin complexity 1)

/-- QueryAnalyzer.analyze_query (the uuid `id` is modelled as `""`,
`filters`/`context` are left out: `analyze_query` never sets them). -/
def analyze_query (query_text : String) : RetrievalQuery :=
  { id := ""
    text := query_text
    intent := determine_intent (pyLower query_text)
    entities_mentioned := extract_entities query_text
    query_type := determine_query_type (pyLower query_text)
    complexity_score :=
      calculate_complexity query_text (extract_entities query_text) }

/-- StrategySelector.strategy_rules dictionary (`dict.get` as `Option`). -/
def strategy_rules : String → Option RetrievalStrategy
  | "entity_lookup" => some .vector_only
  | "relationship_exploration" => some .graph_only
  | "filtered_search" => some .logical_filter
  | "general_search" => some .hybrid
  | _ => none

/-- StrategySelector.select_strategy: complexity below 0.3 gives
vector-only, above 0.7 adaptive, otherwise the intent rule table with
default hybrid. -/
def select_strategy (query : RetrievalQuery) : RetrievalStrategy :=
  if query.complexity_score < 3/10 then
    .vector_only
  else if 7/10 < query.complexity_score then
    .adaptive
  else
    (strategy_rules query.intent).getD .hybrid

/-- One row of a ChromaDB query reply (`ids`/`documents`/`distances`/
`metadatas` zipped).  ChromaDB is an external collaborator; its reply is
supplied by the environment. -/
structure ChromaEntry where
  id : String
  document : String
  distance : ℚ
  metadata : List (String × String)
deriving DecidableEq

/-- Node of the modelled Neo4j store (label `Entity` with `id`/`label`
properties). -/
structure GraphNode where
  id : String
  label : String
deriving DecidableEq

/-- Relationship of the modelled Neo4j store; `weight` is the optional
`weight` property read by `relation.get("weight", 0.5)`. -/
structure GraphEdge where
  src : GraphNode
  dst : GraphNode
  rel_type : String
  weight : Option ℚ
deriving DecidableEq

/-- Data held by the modelled Neo4j store.  Query replies enumerate
`nodes`/`edges` in list order (the store returns rows in an order of its
own choosing; this model fixes it to insertion order). -/
structure GraphDb where
  nodes : List GraphNode
  edges : List GraphEdge
deriving DecidableEq

/-- External backends of `EnhancedAgenticRetrieval`.  `chroma_client` is
`none` when no ChromaDB client was configured (tool unavailable); when
present it maps the requested `n_results` to the reply of
`chroma_client.query`, or to the exception the call raised.
`neo4j_driver` is `none` when no driver was configured; `some (.error e)`
models a driver whose session queries raise `e`; `some (.ok db)` a working
store.  The embedding model is not represented separately: both branches
of `_vector_retrieval` end in the same `chroma_client.query` call. -/
structure ToolEnv where
  chroma_client : Option (Nat → Except String (List ChromaEntry))
  neo4j_driver : Option (Except String GraphDb)

/-- Conversion of one ChromaDB row in `_vector_retrieval`: the distance is
turned into a similarity score `1 - distance`.  The reasoning string keeps
the exact rational instead of the 3-decimal rendering of the source. -/
def vector_result_of (en : ChromaEntry) : RetrievalResult :=
  { id := en.id
    content := en.document
    score := 1 - en.distance
    source_type := "vector"
    metadata := en.metadata
    reasoning := some ("Semantic similarity: " ++ toString (1 - en.distance)) }

/-- EnhancedAgenticRetrieval._vector_retrieval: unavailable client and
raised backend errors both yield no results, with the failure recorded as a
reasoning-chain step; a successful reply is converted entry by entry (no
truncation: the backend is trusted to return at most `max_results` rows). -/
def vector_retrieval (env : ToolEnv) (query : RetrievalQuery) (max_results : Nat) :
    List RetrievalResult × List ChainStep :=
  match env.chroma_client with
  | none => ([], [.vector_search_unavailable])
  | some chroma_query =>
      match chroma_query max_results with
      | .error e => ([], [.vector_search, .vector_search_error e])
      | .ok entries =>
          (entries.map vector_result_of,
            [.vector_search, .vector_results (entries.map vector_result_of).length])

/-- Cypher `find_query` of `_graph_retrieval`: nodes whose lowered label
contains the lowered entity name, `LIMIT 5`. -/
def find_entity_nodes (db : GraphDb) (entity_name : String) : List GraphNode :=
  (db.nodes.filter (fun n => strContains (pyLower n.label) (pyLower entity_name))).take 5

/-- Cypher `neighborhood_query` of `_graph_retrieval`: the undirected match
`(center {id})-[r]-(connected)` produces a row for each incident edge end,
`LIMIT limit`. -/
def neighborhood_records (db : GraphDb) (entity_id : String) (limit : Nat) :
    List (GraphNode × GraphEdge × GraphNode) :=
  ((db.edges.map (fun e =>
      (if e.src.id = entity_id then [(e.src, e, e.dst)] else [])
        ++ (if e.dst.id = entity_id then [(e.dst, e, e.src)] else []))).flatten).take limit

/-- Row conversion of the entity branch of `_graph_retrieval`. -/
def graph_result_of (entity_name : String)
    (rec : GraphNode × GraphEdge × GraphNode) : RetrievalResult :=
  { id := "graph_" ++ rec.1.id ++ "_" ++ rec.2.2.id
    content := rec.1.label ++ " " ++ rec.2.1.rel_type ++ " " ++ rec.2.2.label
    score := rec.2.1.weight.getD (1/2)
    source_type := "graph"
    metadata := [("center_entity", rec.1.label), ("connected_entity", rec.2.2.label),
      ("relationship", rec.2.1.rel_type)]
    reasoning := some ("Graph traversal from " ++ entity_name) }

/-- Entity branch of `_graph_retrieval`: for each mentioned entity, find up
to 5 matching nodes and collect each of their neighborhoods, the per-entity
limit being `max_results` integer-divided by the number of entities. -/
def graph_entity_results (db : GraphDb) (query : RetrievalQuery)
    (max_results : Nat) : List RetrievalResult :=
  ((query.entities_mentioned.map (fun entity_name =>
      ((find_entity_nodes db entity_name).map (fun node =>
          (neighborhood_records db node.id
              (max_results / query.entities_mentioned.length)).map
            (graph_result_of entity_name))).flatten)).flatten)

/-- Cypher `general_query` of `_graph_retrieval`: undirected pattern
`(n)-[r]-(m)` filtered on either label containing the query text, so each
matching edge is reported in both orientations, `LIMIT limit`. -/
def graph_general_records (db : GraphDb) (query_text : String) (limit : Nat) :
    List (GraphNode × GraphEdge × GraphNode) :=
  ((db.edges.map (fun e =>
      if strContains (pyLower e.src.label) (pyLower query_text)
          || strContains (pyLower e.dst.label) (pyLower query_text) then
        [(e.src, e, e.dst), (e.dst, e, e.src)]
      else [])).flatten).take limit

/-- Row conversion of the general branch of `_graph_retrieval`. -/
def general_graph_result_of (rec : GraphNode × GraphEdge × GraphNode) :
    RetrievalResult :=
  { id := "graph_" ++ rec.1.id ++ "_" ++ rec.2.2.id
    content := rec.1.label ++ " " ++ rec.2.1.rel_type ++ " " ++ rec.2.2.label
    score := rec.2.1.weight.getD (1/2)
    source_type := "graph"
    metadata := [("entity1", rec.1.label), ("entity2", rec.2.2.label),
      ("relationship", rec.2.1.rel_type)]
    reasoning := some "General graph search" }

/-- EnhancedAgenticRetrieval._graph_retrieval: missing driver and raised
store errors yield no results with a recorded step; otherwise the entity
branch runs when entities were mentioned, the general branch when not, the
row count is recorded and the rows are truncated to `max_results`. -/
def graph_retrieval (env : ToolEnv) (query : RetrievalQuery) (max_results : Nat) :
    List RetrievalResult × List ChainStep :=
  match env.neo4j_driver with
  | none => ([], [.graph_search_unavailable])
  | some (.error e) => ([], [.graph_search, .graph_search_error e])
  | some (.ok db) =>
      let results :=
        if query.entities_mentioned.isEmpty then
          (graph_general_records db query.text max_results).map general_graph_result_of
        else
          graph_entity_results db query max_results
      (results.take max_results, [.graph_search, .graph_results results.length])

/-- EnhancedAgenticRetrieval._filter_retrieval: an acknowledged placeholder
that records its two steps and returns no results regardless of the query
or of any backing store. -/
def filter_retrieval (query : RetrievalQuery) (max_results : Nat) :
    List RetrievalResult × List ChainStep :=
  ([], [.logical_filter_step, .filter_results 0])

/-- Deduplication loop of `_hybrid_retrieval`: keep the first result for
each lowered, stripped content string. -/
def dedup_by_content_aux (seen : List String) :
    List RetrievalResult → List RetrievalResult
  | [] => []
  | r :: rest =>
      if pyStrip (pyLower r.content) ∈ seen then
        dedup_by_content_aux seen rest
      else
        r :: dedup_by_content_aux (pyStrip (pyLower r.content) :: seen) rest

/-- Content-keyed deduplication of `_hybrid_retrieval`, starting from an
empty seen-set. -/
def dedup_by_content (rs : List RetrievalResult) : List RetrievalResult :=
  dedup_by_content_aux [] rs

/-- The in-place `unique_results.sort(key=lambda x: x.score, reverse=True)`
of `_hybrid_retrieval`: a stable sort into descending score order. -/
def sort_by_score_desc (rs : List RetrievalResult) : List RetrievalResult :=
  List.insertionSort (fun a b => b.score ≤ a.score) rs

/-- EnhancedAgenticRetrieval._hybrid_retrieval: vector and graph passes at
half of `max_results` each, concatenated vector-first, deduplicated by
content, sorted descending by score and truncated. -/
def hybrid_retrieval (env : ToolEnv) (query : RetrievalQuery) (max_results : Nat) :
    List RetrievalResult × List ChainStep :=
  let vr := vector_retrieval env query (max_results / 2)
  let gr := graph_retrieval env query (max_results / 2)
  let unique := dedup_by_content (vr.1 ++ gr.1)
  ((sort_by_score_desc unique).take max_results,
    ChainStep.hybrid_search :: vr.2 ++ gr.2
      ++ [ChainStep.hybrid_combination vr.1.length gr.1.length unique.length])

/-- EnhancedAgenticRetrieval._adaptive_retrieval: a vector pass at a third
of `max_results`; when it returned something and its mean score exceeds
0.7, a graph pass at a third of `max_results` supplements it, otherwise the
initial results are discarded and a hybrid pass at the full `max_results`
replaces them; the outcome is truncated to `max_results`. -/
def adaptive_retrieval (env : ToolEnv) (query : RetrievalQuery) (max_results : Nat) :
    List RetrievalResult × List ChainStep :=
  let ir := vector_retrieval env query (max_results / 3)
  if 0 < ir.1.length ∧ 7/10 < npMean (ir.1.map RetrievalResult.score) then
    let gr := graph_retrieval env query (max_results / 3)
    ((ir.1 ++ gr.1).take max_results,
      ChainStep.adaptive_search :: ir.2 ++ gr.2
        ++ [ChainStep.adaptive_decision (npMean (ir.1.map RetrievalResult.score))
              (ir.1.length + gr.1.length)])
  else
    let hr := hybrid_retrieval env query max_results
    (hr.1.take max_results,
      ChainStep.adaptive_search :: ir.2 ++ hr.2
        ++ [ChainStep.adaptive_decision
              (if 0 < ir.1.length then npMean (ir.1.map RetrievalResult.score) else 0)
              hr.1.length])

/-- EnhancedAgenticRetrieval._calculate_confidence: zero for no results,
otherwise the weighted sum of mean score (0.5), the count factor
`min(count/10, 1)` (0.2), the complexity factor `1 - 0.3 * complexity`
(0.2) and the source-diversity factor `distinct source types / 3` (0.1),
capped at 1. -/
def calculate_confidence (results : List RetrievalResult)
    (query : RetrievalQuery) : ℚ :=
  if results.isEmpty then 0
  else
    ratMin
      (npMean (results.map RetrievalResult.score) * (1/2)
        + ratMin ((results.length : ℚ) / 10) 1 * (1/5)
        + (1 - query.complexity_score * (3/10)) * (1/5)
        + (((results.map RetrievalResult.source_type).dedup.length : ℚ) / 3) * (1/10))
      1

/-- EnhancedAgenticRetrieval.retrieve: analyze the query, take the supplied
strategy or select one, run the strategy and assemble the response.  Every
tool catches its own backend failures and the strategy match is exhaustive,
so the outer try/except of the source (whose handler would return an empty
response with a recorded error step) is unreachable; the totality of this
definition is that guarantee.  `processing_time_ms` is fixed to 0. -/
def retrieve (env : ToolEnv) (query_text : String)
    (strategy_arg : Option RetrievalStrategy) (max_results : Nat) :
    RetrievalResponse :=
  let query := analyze_query query_text
  let strategy := strategy_arg.getD (select_strategy query)
  let dispatch :=
    match strategy with
    | .vector_only => vector_retrieval env query max_results
    | .graph_only => graph_retrieval env query max_results
    | .logical_filter => filter_retrieval query max_results
    | .hybrid => hybrid_retrieval env query max_results
    | .adaptive => adaptive_retrieval env query max_results
  { query_id := query.id
    strategy_used := strategy.value
    results := dispatch.1
    reasoning_chain :=
      ChainStep.query_analysis query.intent query.complexity_score
        query.entities_mentioned strategy.value :: dispatch.2
    total_results := dispatch.1.length
    processing_time_ms := 0
    confidence_score := calculate_confidence dispatch.1 query }

/-- Enum `FilterOperator` of `logical_filter_tool.py` (`in`/`not_in` spelt
`isIn`/`notIn`, `in` being reserved). -/
inductive FilterOperator where
  | eq
  | ne
  | gt
  | lt
  | gte
  | lte
  | containsOp
  | isIn
  | notIn
deriving DecidableEq

/-- Values a `FilterCondition` may carry: Python strings, integers and
flat lists thereof (floats, tuples and nested lists are not modelled). -/
inductive FilterValue where
  | str (s : String)
  | num (n : Int)
  | strList (ss : List String)
  | numList (ns : List Int)
deriving DecidableEq

/-- Dataclass `FilterCondition`. -/
structure FilterCondition where
  field : String
  operator : FilterOperator
  value : FilterValue
deriving DecidableEq

/-- Value formatting of `_condition_to_cypher`: strings are single-quoted,
lists rendered with `str(list(value))` (Python `repr` per element: strings
single-quoted, integers plain), anything else with `str(value)`. -/
def format_value : FilterValue → String
  | .str s => "\x27" ++ s ++ "\x27"
  | .strList ss =>
      "[" ++ String.intercalate ", " (ss.map (fun s => "\x27" ++ s ++ "\x27")) ++ "]"
  | .numList ns => "[" ++ String.intercalate ", " (ns.map toString) ++ "]"
  | .num n => toString n

/-- LogicalFilterTool._condition_to_cypher: one Cypher predicate per
operator over property `n.<field>`. -/
def condition_to_cypher (c : FilterCondition) : String :=
  let f := "n." ++ c.field
  let v := format_value c.value
  match c.operator with
  | .eq => f ++ " = " ++ v
  | .ne => f ++ " <> " ++ v
  | .gt => f ++ " > " ++ v
  | .lt => f ++ " < " ++ v
  | .gte => f ++ " >= " ++ v
  | .lte => f ++ " <= " ++ v
  | .containsOp => f ++ " CONTAINS " ++ v
  | .isIn => f ++ " IN " ++ v
  | .notIn => "NOT " ++ f ++ " IN " ++ v

/-- LogicalFilterTool._build_filter_query: `MATCH (n)`, a WHERE clause
conjoining the rendered conditions when any exist, then
`RETURN n LIMIT limit`, joined with newlines. -/
def build_filter_query (filters : List FilterCondition) (limit : Nat) : String :=
  String.intercalate "\n"
    (["MATCH (n)"]
      ++ (if filters.isEmpty then []
          else ["WHERE " ++ String.intercalate " AND "
                  (filters.map condition_to_cypher)])
      ++ ["RETURN n LIMIT " ++ toString limit])

/-- LogicalFilterTool.search: builds the Cypher query and returns whatever
records the backing store yields for it, unchanged (no scoring); with no
store configured it returns no records.  The store is modelled as a
function from the query string to its reply rows (of any row type). -/
def logical_filter_search {α : Type} (graph_db : Option (String → List α))
    (filters : List FilterCondition) (limit : Nat) : List α :=
  match graph_db with
  | some db_query => db_query (build_filter_query filters limit)
  | none => []

/-- Dataclass `ConversationMessage` (uuid `id` as a plain string; the
`datetime` timestamp is not modelled; `metadata` as a string association
list). -/
structure ConversationMessage where
  id : String
  role : String
  content : String
  metadata : Option (List (String × String))
deriving DecidableEq

/-- Per-conversation metadata dictionary of `ConversationMemory`
(`created_at`/`last_updated` are wall-clock datetimes and are not
modelled). -/
structure ConversationMetadata where
  message_count : Nat
deriving DecidableEq

/-- State of a `ConversationMemory` instance: the two dictionaries keyed by
conversation id, plus the constructor parameters. -/
structure ConversationMemory where
  max_messages : Nat
  context_window : Nat
  conversations : String → Option (List ConversationMessage)
  conversation_metadata : String → Option ConversationMetadata

/-- ConversationMemory.__init__ (source defaults: capacity 20, context
window 6). -/
def ConversationMemory.init (max_messages context_window : Nat) :
    ConversationMemory :=
  { max_messages := max_messages
    context_window := context_window
    conversations := fun _ => none
    conversation_metadata := fun _ => none }

/-- Last `n` elements of a list, in order. -/
def takeLast {α : Type} (n : Nat) (l : List α) : List α :=
  (l.reverse.take n).reverse

/-- Appending to a `collections.deque(maxlen)`: the buffer keeps the most
recent `maxlen` entries, evicting from the front. -/
def deque_append {α : Type} (maxlen : Nat) (buf : List α) (x : α) : List α :=
  takeLast maxlen (buf ++ [x])

/-- ConversationMemory.add_message: a first message for an id creates an
empty bounded buffer and a metadata record with `message_count` 0; the
message is then appended (with deque eviction) and `message_count` is
incremented.  Eviction never touches `message_count`. -/
def add_message (mem : ConversationMemory) (conversation_id : String)
    (message : ConversationMessage) : ConversationMemory :=
  let buf := (mem.conversations conversation_id).getD []
  let meta := (mem.conversation_metadata conversation_id).getD ⟨0⟩
  { mem with
    conversations := fun c =>
      if c = conversation_id then
        some (deque_append mem.max_messages buf message)
      else mem.conversations c
    conversation_metadata := fun c =>
      if c = conversation_id then some ⟨meta.message_count + 1⟩
      else mem.conversation_metadata c }

/-- ConversationMemory.get_context: the most recent `context_window`
messages, or `[]` for an unknown conversation id. -/
def get_context (mem : ConversationMemory) (conversation_id : String) :
    List ConversationMessage :=
  match mem.conversations conversation_id with
  | none => []
  | some msgs => takeLast mem.context_window msgs

/-- One step of the reasoning engine (uuid, timestamps and the per-step
timing are not modelled; the input/output dictionaries are dropped). -/
structure ReasoningStep where
  step_type : String
  description : String
  confidence : ℚ
deriving DecidableEq

/-- Exception text of `"source_type" in result` applied to a
`RetrievalResult` dataclass instance. -/
def reasoning_type_error_text : String :=
  "argument of type \x27RetrievalResult\x27 is not iterable"

/-- ReasoningEngine.generate_reasoning_chain.  Its second step,
`_summarize_retrieval_results`, indexes each result as a mapping
(`"source_type" in result`), but `process_query` hands it the
`RetrievalResult` dataclass records of `RetrievalResponse.results`; for a
non-empty result list this raises a `TypeError`, which the caller catches.
With an empty result list all three steps are built; their confidences are
then the constants of the empty case (0.9, the 0.0 average of no scores,
and the 0.7 base synthesis confidence with no boosts). -/
def generate_reasoning_chain (query : String)
    (context : List ConversationMessage) (results : List RetrievalResult) :
    Except String (List ReasoningStep) :=
  if results.isEmpty then
    .ok
      [⟨"query_analysis", "Analyzed user query and conversation context", 9/10⟩,
       ⟨"information_retrieval",
         "Retrieved relevant information from knowledge base", 0⟩,
       ⟨"evidence_synthesis", "Synthesized evidence from multiple sources", 7/10⟩]
  else
    .error reasoning_type_error_text

/-- Answer for the no-results fallback of `_generate_fallback_answer`. -/
def no_info_answer : String :=
  "I couldn\x27t find specific information to answer your query. Please try rephrasing your question or providing more context."

/-- EnhancedReasoningStream._generate_fallback_answer: a template over the
top result, up to two supporting snippets, and a trailer with the source
count and mean score (the 2-decimal rendering of the source is kept as the
exact rational). -/
def generate_fallback_answer (query : String)
    (results : List RetrievalResult) : String :=
  match results with
  | [] => no_info_answer
  | top :: rest =>
      "Based on the available information, here\x27s what I found:\n\n"
        ++ top.content ++ "\n\n"
        ++ (if 1 < results.length then
              "Additional relevant information:\n"
                ++ String.join ((rest.take 2).map (fun r => "• " ++ r.content ++ "\n"))
            else "")
        ++ "\n(This response is based on " ++ toString results.length
        ++ " sources with an average confidence of "
        ++ toString (npMean (results.map RetrievalResult.score)) ++ ")"

/-- Environment of `EnhancedReasoningStream`: the retrieval backends plus
the outcome of the external LLM call.  `llm_answer = none` models no
configured client (`_generate_answer` then falls back); `some (.error e)`
a client whose call raised (caught inside `_generate_llm_answer`, which
falls back); `some (.ok t)` a successful generation.  The prompt string
built for the client does not influence control flow and is not
modelled. -/
structure StreamEnv where
  tool_env : ToolEnv
  llm_answer : Option (Except String String)

/-- EnhancedReasoningStream._generate_answer together with the exception
handler of `_generate_llm_answer`: LLM absence and LLM failure both
degrade to the extractive fallback; only a successful call returns the
generated text. -/
def generate_answer (env : StreamEnv) (query : String)
    (results : List RetrievalResult) (context : List ConversationMessage) :
    String :=
  match env.llm_answer with
  | none => generate_fallback_answer query results
  | some (.error _) => generate_fallback_answer query results
  | some (.ok t) => t

/-- Dataclass `RAGResponse` (`supporting_evidence` carried as
content/score/source-type triples; uuids and timings as elsewhere). -/
structure RAGResponse where
  response_id : String
  query : String
  answer : String
  supporting_evidence : List (String × ℚ × String)
  reasoning_steps : List ReasoningStep
  confidence_score : ℚ
  sources_used : List String
  processing_time_ms : ℚ
  conversation_id : String
deriving DecidableEq

/-- Apology answer of the `process_query` exception handler. -/
def error_answer (e : String) : String :=
  "I apologize, but I encountered an error while processing your query: " ++ e

/-- The user turn `process_query` appends before its try block. -/
def user_message (query : String) : ConversationMessage :=
  { id := "", role := "user", content := query, metadata := none }

/-- Fallible body of the `process_query` try block after retrieval: build
the reasoning chain (which is where a failure can originate, the retrieval
itself being total) and then the answer. -/
def process_attempt (env : StreamEnv) (query : String)
    (context : List ConversationMessage)
    (retrieval_response : RetrievalResponse) :
    Except String (List ReasoningStep × String) :=
  (generate_reasoning_chain query context retrieval_response.results).map
    (fun steps =>
      (steps, generate_answer env query retrieval_response.results context))

/-- EnhancedReasoningStream.process_query: append the user turn, compute
the context, retrieve with the adaptive strategy at `max_results` 10, and
run the fallible body.  On success the full `RAGResponse` is assembled and
the assistant turn appended; on any internal failure the caught exception
becomes a well-formed `RAGResponse` with the apology answer and confidence
0 (and no assistant turn).  No exception escapes: the return type is a
plain pair. -/
def process_query (env : StreamEnv) (mem : ConversationMemory)
    (query : String) (conversation_id : String) :
    RAGResponse × ConversationMemory :=
  let mem1 := add_message mem conversation_id (user_message query)
  let context := get_context mem1 conversation_id
  let retrieval_response := retrieve env.tool_env query (some .adaptive) 10
  match process_attempt env query context retrieval_response with
  | .error e =>
      ({ response_id := ""
         query := query
         answer := error_answer e
         supporting_evidence := []
         reasoning_steps := []
         confidence_score := 0
         sources_used := []
         processing_time_ms := 0
         conversation_id := conversation_id }, mem1)
  | .ok (steps, answer) =>
      let rag : RAGResponse :=
        { response_id := ""
          query := query
          answer := answer
          supporting_evidence := retrieval_response.results.map
            (fun r => (r.content, r.score, r.source_type))
          reasoning_steps := steps
          confidence_score := retrieval_response.confidence_score
          sources_used :=
            (retrieval_response.results.map RetrievalResult.source_type).dedup
          processing_time_ms := 0
          conversation_id := conversation_id }
      (rag,
        add_message mem1 conversation_id
          { id := ""
            role := "assistant"
            content := answer
            metadata := some
              [("confidence", toString rag.confidence_score),
               ("sources", String.intercalate "," rag.sources_used),
               ("reasoning_steps", toString steps.length)] })

/-- Query text of the first spec scenario. -/
def scenario_query_1 : String := "Who works for Apple Inc.?"

/-- Query text of the second spec scenario. -/
def scenario_query_2 : String :=
  "How are Apple Inc. and Steve Jobs related, and what companies are they connected to?"

/-- Accessor for the `message_count` metadata of one conversation (0 when
the conversation does not exist yet). -/
def message_count_of (mem : ConversationMemory) (cid : String) : Nat :=
  ((mem.conversation_metadata cid).getD ⟨0⟩).message_count

/-- Sequential `add_message` calls for a whole list of messages against one
conversation id, starting from a fresh memory with the source defaults
(capacity 20, context window 6). -/
def apply_messages (cid : String) (msgs : List ConversationMessage) :
    ConversationMemory :=
  msgs.foldl (fun m msg => add_message m cid msg) (ConversationMemory.init 20 6)

/-- Buffer of one conversation (empty when the conversation is unknown). -/
def buffer_of (mem : ConversationMemory) (cid : String) :
    List ConversationMessage :=
  (mem.conversations cid).getD []

/-- Twenty-one distinct user messages, for the memory witnesses. -/
def witness_messages : List ConversationMessage :=
  (List.range 21).map (fun i => ⟨"", "user", (List.replicate i "x").foldl (· ++ ·) "m", none⟩)

/-- The descending-score comparison is total. -/
instance : IsTotal RetrievalResult (fun a b => b.score ≤ a.score) :=
  ⟨fun a b => le_total b.score a.score⟩

/-- The descending-score comparison is transitive. -/
instance : IsTrans RetrievalResult (fun a b => b.score ≤ a.score) :=
  ⟨fun _ _ _ hab hbc => le_trans hbc hab⟩

/-- Concrete ChromaDB row used by the witnesses: similarity 0.8. -/
def entryA : ChromaEntry :=
  { id := "d1", document := "alpha doc", distance := 1/5, metadata := [] }

/-- Concrete graph node "Alpha". -/
def nodeA : GraphNode := { id := "n1", label := "Alpha" }

/-- Concrete graph node "Beta". -/
def nodeB : GraphNode := { id := "n2", label := "Beta" }

/-- Concrete relationship from Alpha to Beta with weight 0.9. -/
def edgeAB : GraphEdge :=
  { src := nodeA, dst := nodeB, rel_type := "KNOWS", weight := some (9/10) }

/-- Concrete two-node store. -/
def dbAB : GraphDb := { nodes := [nodeA, nodeB], edges := [edgeAB] }

/-- Environment with both backends healthy: one vector hit at score 0.8 and
the two-node graph. -/
def envA : ToolEnv :=
  { chroma_client := some (fun _ => .ok [entryA])
    neo4j_driver := some (.ok dbAB) }

/-- Environment in which both configured backends raise on every call. -/
def env_fail : ToolEnv :=
  { chroma_client := some (fun _ => .error "chroma connection refused")
    neo4j_driver := some (.error "neo4j connection refused") }

/-- Concrete single-result list for the confidence witness. -/
def witness_results : List RetrievalResult :=
  [{ id := "r1", content := "alpha", score := 4/5, source_type := "vector",
     metadata := [], reasoning := none }]

/-- Concrete mid-complexity query record for the confidence witness. -/
def witness_query : RetrievalQuery :=
  { id := "", text := "", intent := "general_search", entities_mentioned := [],
    query_type := "", complexity_score := 1/2 }

/-- Concrete filter conditions for the filter-translation witness. -/
def witness_filters : List FilterCondition :=
  [{ field := "status", operator := FilterOperator.eq,
     value := FilterValue.str "active" },
   { field := "count", operator := FilterOperator.gte,
     value := FilterValue.num 3 }]

/-- Stream environment over the healthy backends, with no LLM client. -/
def streamEnvA : StreamEnv := { tool_env := envA, llm_answer := none }

theorem ratMin_eq_min (a b : ℚ) : ratMin a b = min a b := by
  rw [ratMin, min_def]

theorem ratMin_nonneg {a b : ℚ} (ha : 0 ≤ a) (hb : 0 ≤ b) : 0 ≤ ratMin a b := by
  rw [ratMin]; split <;> assumption

theorem ratMin_le_right (a b : ℚ) : ratMin a b ≤ b := by
  rw [ratMin]; split
  · assumption
  · exact le_rfl

theorem calculate_complexity_le_one (t : String) (es : List String) :
    calculate_complexity t es ≤ 1 := by
  rw [calculate_complexity]
  exact ratMin_le_right _ _

theorem calculate_complexity_nonneg (t : String) (es : List String) :
    0 ≤ calculate_complexity t es := by
  rw [calculate_complexity]
  dsimp only
  have h1 : 0 ≤ ratMin ((t.length : ℚ) / 200) (3/10) :=
    ratMin_nonneg (by positivity) (by norm_num)
  have h2 : 0 ≤ ratMin ((es.length : ℚ) / 10) (3/10) :=
    ratMin_nonneg (by positivity) (by norm_num)
  have h3 : 0 ≤ ratMin (((logical_ops.filter
      (fun op => strContains (pyLower t) op)).length : ℚ) / 5) (1/5) :=
    ratMin_nonneg (by positivity) (by norm_num)
  have h4 : 0 ≤ ratMin (((question_words.filter
      (fun qw => strContains (pyLower t) qw)).length : ℚ) / 3) (1/5) :=
    ratMin_nonneg (by positivity) (by norm_num)
  exact ratMin_nonneg (by linarith) (by norm_num)

/-- C2: strategy selection is a pure function of the analyzed query
intent/complexity pair, with the fixed priority: complexity below 0.3
forces vector-only, above 0.7 forces adaptive, and only in between does the
intent rule table decide (entity_lookup to vector-only,
relationship_exploration to graph-only, filtered_search to filter-only,
general_search to hybrid). -/
theorem C2_strategy_rule_table (q : RetrievalQuery) :
    (q.complexity_score < 3/10 → select_strategy q = .vector_only)
    ∧ (7/10 < q.complexity_score → select_strategy q = .adaptive)
    ∧ (3/10 ≤ q.complexity_score → q.complexity_score ≤ 7/10 →
        ((q.intent = "entity_lookup" → select_strategy q = .vector_only)
          ∧ (q.intent = "relationship_exploration" →
              select_strategy q = .graph_only)
          ∧ (q.intent = "filtered_search" → select_strategy q = .logical_filter)
          ∧ (q.intent = "general_search" → select_strategy q = .hybrid)))
    ∧ (∀ q' : RetrievalQuery, q.intent = q'.intent →
        q.complexity_score = q'.complexity_score →
        select_strategy q = select_strategy q') := by
  refine ⟨fun h => by simp [select_strategy, h], fun h => ?_, fun h1 h2 => ?_, fun q' hi hc => ?_⟩
  · rw [select_strategy, if_neg (by linarith), if_pos h]
  · have hn1 : ¬ q.complexity_score < 3/10 := by linarith
    have hn2 : ¬ 7/10 < q.complexity_score := by linarith
    refine ⟨?_, ?_, ?_, ?_⟩ <;> intro hi <;>
      simp [select_strategy, hn1, hn2, hi, strategy_rules]
  · simp only [select_strategy, hi, hc]

/-- Witness for C2 at a mid-complexity general-search query. -/
theorem C2_strategy_rule_table_witness :
    select_strategy ⟨"", "", "general_search", [], "", 1/2⟩ =
      RetrievalStrategy.hybrid :=
  (((C2_strategy_rule_table ⟨"", "", "general_search", [], "", 1/2⟩).2.2.1
    (by norm_num) (by norm_num)).2.2.2) rfl

theorem scenario_1_complexity :
    (analyze_query scenario_query_1).complexity_score = 33/40 := by
  show calculate_complexity scenario_query_1 (extract_entities scenario_query_1) = 33/40
  have h0 : (scenario_query_1.length) = 25 := by decide
  have h1 : (logical_ops.filter
      (fun op => strContains (pyLower scenario_query_1) op)).length = 1 := by decide
  have h2 : (question_words.filter
      (fun qw => strContains (pyLower scenario_query_1) qw)).length = 1 := by decide
  have h3 : (extract_entities scenario_query_1).length = 3 := by decide
  rw [calculate_complexity, h0, h1, h2, h3]
  norm_num [ratMin]

/-- C7 counterexample: on the scenario query the selector does not choose
the vector-only strategy (the analyzer finds three capitalized tokens and a
spurious substring operator hit, driving complexity to 0.825). -/
theorem C7_counterexample :
    ¬ ((analyze_query scenario_query_1).complexity_score < 3/10
        ∧ select_strategy (analyze_query scenario_query_1) =
            RetrievalStrategy.vector_only) := by
  rintro ⟨h1, -⟩
  rw [scenario_1_complexity] at h1
  norm_num at h1

/-- C7 as amended: the analyzer scores the scenario query at 0.825 (three
capitalized tokens including the question word and the trailing
abbreviation, plus a substring operator hit inside a word), which exceeds
0.7, so the selector chooses the adaptive strategy rather than
vector-only. -/
theorem C7_amended :
    (analyze_query scenario_query_1).complexity_score = 33/40
    ∧ 7/10 < (analyze_query scenario_query_1).complexity_score
    ∧ select_strategy (analyze_query scenario_query_1) =
        RetrievalStrategy.adaptive := by
  refine ⟨scenario_1_complexity, ?_, ?_⟩
  · rw [scenario_1_complexity]; norm_num
  · rw [select_strategy, scenario_1_complexity]
    norm_num

theorem scenario_2_intent :
    (analyze_query scenario_query_2).intent = "entity_lookup" := by decide

theorem scenario_2_complexity :
    (analyze_query scenario_query_2).complexity_score = 1 := by
  show calculate_complexity scenario_query_2 (extract_entities scenario_query_2) = 1
  have h0 : (scenario_query_2.length) = 84 := by decide
  have h1 : (logical_ops.filter
      (fun op => strContains (pyLower scenario_query_2) op)).length = 1 := by decide
  have h2 : (question_words.filter
      (fun qw => strContains (pyLower scenario_query_2) qw)).length = 2 := by decide
  have h3 : (extract_entities scenario_query_2).length = 5 := by decide
  rw [calculate_complexity, h0, h1, h2, h3]
  norm_num [ratMin]

/-- C8 counterexample: the analyzer does not classify the scenario query as
relationship exploration, because the entity-keyword family (which contains
"what") is tested first and wins. -/
theorem C8_counterexample :
    (analyze_query scenario_query_2).intent ≠ "relationship_exploration" := by
  decide

/-- C8 as amended: the intent is entity_lookup (the entity-keyword check
precedes the relationship keywords and "what" occurs in the query); the
complexity score is 1, which is above 0.3 and also above 0.7, so the
selected strategy is adaptive. -/
theorem C8_amended :
    (analyze_query scenario_query_2).intent = "entity_lookup"
    ∧ (analyze_query scenario_query_2).complexity_score = 1
    ∧ 3/10 < (analyze_query scenario_query_2).complexity_score
    ∧ 7/10 < (analyze_query scenario_query_2).complexity_score
    ∧ select_strategy (analyze_query scenario_query_2) =
        RetrievalStrategy.adaptive := by
  refine ⟨scenario_2_intent, scenario_2_complexity, ?_, ?_, ?_⟩
  · rw [scenario_2_complexity]; norm_num
  · rw [scenario_2_complexity]; norm_num
  · rw [select_strategy, scenario_2_complexity]
    norm_num

theorem takeLast_eq_rtake {α : Type} (n : Nat) (l : List α) :
    takeLast n l = l.rtake n :=
  (List.rtake_eq_reverse_take_reverse l n).symm

theorem take_append_take {α : Type} (m : Nat) (a b : List α) :
    (a ++ b.take m).take m = (a ++ b).take m := by
  rw [List.take_append_eq_append_take, List.take_append_eq_append_take,
    List.take_take, Nat.min_eq_left (Nat.sub_le m a.length)]

theorem takeLast_append_left {α : Type} (m : Nat) (l l' : List α) :
    takeLast m (takeLast m l ++ l') = takeLast m (l ++ l') := by
  rw [takeLast, takeLast, takeLast, List.reverse_append, List.reverse_reverse,
    take_append_take, ← List.reverse_append]

theorem foldl_deque_append {α : Type} (m : Nat) (msgs : List α) :
    ∀ buf : List α,
      msgs.foldl (deque_append m) (takeLast m buf) = takeLast m (buf ++ msgs) := by
  induction msgs with
  | nil => intro buf; simp
  | cons x xs ih =>
      intro buf
      rw [List.foldl_cons]
      have hstep : deque_append m (takeLast m buf) x = takeLast m (buf ++ [x]) := by
        rw [deque_append, takeLast_append_left]
      rw [hstep, ih (buf ++ [x]), List.append_assoc]
      rfl

theorem add_message_buffer (mem : ConversationMemory) (cid : String)
    (msg : ConversationMessage) :
    buffer_of (add_message mem cid msg) cid
      = deque_append mem.max_messages (buffer_of mem cid) msg := by
  simp [add_message, buffer_of]

theorem add_message_count (mem : ConversationMemory) (cid : String)
    (msg : ConversationMessage) :
    message_count_of (add_message mem cid msg) cid
      = message_count_of mem cid + 1 := by
  simp [add_message, message_count_of]

theorem fold_add_buffer (cid : String) (msgs : List ConversationMessage) :
    ∀ mem : ConversationMemory,
      buffer_of (msgs.foldl (fun m msg => add_message m cid msg) mem) cid
        = msgs.foldl (deque_append mem.max_messages) (buffer_of mem cid) := by
  induction msgs with
  | nil => intro mem; rfl
  | cons x xs ih =>
      intro mem
      rw [List.foldl_cons, List.foldl_cons, ih, add_message_buffer]
      rfl

theorem fold_add_count (cid : String) (msgs : List ConversationMessage) :
    ∀ mem : ConversationMemory,
      message_count_of (msgs.foldl (fun m msg => add_message m cid msg) mem) cid
        = message_count_of mem cid + msgs.length := by
  induction msgs with
  | nil => intro mem; rfl
  | cons x xs ih =>
      intro mem
      rw [List.foldl_cons, List.length_cons, ih, add_message_count]
      omega

theorem apply_messages_buffer (cid : String) (msgs : List ConversationMessage) :
    buffer_of (apply_messages cid msgs) cid = takeLast 20 msgs := by
  rw [apply_messages, fold_add_buffer]
  have hm : (ConversationMemory.init 20 6).max_messages = 20 := rfl
  have hinit : buffer_of (ConversationMemory.init 20 6) cid = takeLast 20 [] := rfl
  rw [hm, hinit, foldl_deque_append]
  rfl

/-- C9: with the default capacity of 20, inserting more than 20 messages
into one conversation leaves the stored buffer at exactly the 20 most
recently added messages, in insertion order, the oldest having been evicted
first. -/
theorem C9_fifo_eviction (cid : String) (msgs : List ConversationMessage)
    (h : 20 < msgs.length) :
    buffer_of (apply_messages cid msgs) cid = msgs.drop (msgs.length - 20)
    ∧ (buffer_of (apply_messages cid msgs) cid).length = 20 := by
  have hb : buffer_of (apply_messages cid msgs) cid = msgs.drop (msgs.length - 20) := by
    rw [apply_messages_buffer, takeLast_eq_rtake, List.rtake]
  refine ⟨hb, ?_⟩
  rw [hb, List.length_drop]
  omega

/-- Witness for C9 at 21 concrete messages. -/
theorem C9_fifo_eviction_witness :
    20 < witness_messages.length
    ∧ buffer_of (apply_messages "conv" witness_messages) "conv"
        = witness_messages.drop (witness_messages.length - 20) :=
  ⟨by decide, (C9_fifo_eviction "conv" witness_messages (by decide)).1⟩

/-- C10: `message_count` counts every message ever added to a conversation
and is never decremented by eviction: after adding any list of messages to
a fresh memory it equals the full list length, while the stored buffer
holds at most the 20 most recent messages. -/
theorem C10_message_count_monotone (cid : String)
    (msgs : List ConversationMessage) :
    message_count_of (apply_messages cid msgs) cid = msgs.length
    ∧ (buffer_of (apply_messages cid msgs) cid).length = min msgs.length 20 := by
  constructor
  · rw [apply_messages, fold_add_count]
    simp [message_count_of, ConversationMemory.init]
  · rw [apply_messages_buffer, takeLast_eq_rtake, List.rtake, List.length_drop]
    omega

/-- C1: the adaptive strategy first runs a vector pass at a third of
`max_results`; a non-empty pass with mean score above 0.7 is supplemented
by a graph pass at a third of `max_results`, otherwise the pass is
discarded and a hybrid pass at the full `max_results` replaces it; the
final result list is truncated to `max_results`. -/
theorem C1_adaptive_escalation (env : ToolEnv) (query_text : String)
    (max_results : Nat) :
    (0 < (vector_retrieval env (analyze_query query_text) (max_results / 3)).1.length
        ∧ 7/10 < npMean (((vector_retrieval env (analyze_query query_text)
            (max_results / 3)).1).map RetrievalResult.score) →
      (retrieve env query_text (some RetrievalStrategy.adaptive) max_results).results
        = ((vector_retrieval env (analyze_query query_text) (max_results / 3)).1
            ++ (graph_retrieval env (analyze_query query_text) (max_results / 3)).1).take
              max_results)
    ∧ (¬ (0 < (vector_retrieval env (analyze_query query_text) (max_results / 3)).1.length
        ∧ 7/10 < npMean (((vector_retrieval env (analyze_query query_text)
            (max_results / 3)).1).map RetrievalResult.score)) →
      (retrieve env query_text (some RetrievalStrategy.adaptive) max_results).results
        = ((hybrid_retrieval env (analyze_query query_text) max_results).1).take
            max_results)
    ∧ (retrieve env query_text (some RetrievalStrategy.adaptive) max_results).results.length
        ≤ max_results := by
  have hres : (retrieve env query_text (some RetrievalStrategy.adaptive) max_results).results
      = (adaptive_retrieval env (analyze_query query_text) max_results).1 := rfl
  refine ⟨fun h => ?_, fun h => ?_, ?_⟩
  · rw [hres]
    simp only [adaptive_retrieval]
    rw [if_pos h]
  · rw [hres]
    simp only [adaptive_retrieval]
    rw [if_neg h]
  · rw [hres]
    simp only [adaptive_retrieval]
    split
    · exact List.length_take_le _ _
    · exact List.length_take_le _ _

theorem envA_good_path :
    0 < (vector_retrieval envA (analyze_query "Alpha") (10 / 3)).1.length
      ∧ 7/10 < npMean (((vector_retrieval envA (analyze_query "Alpha")
          (10 / 3)).1).map RetrievalResult.score) := by
  constructor
  · decide
  · have hm : ((vector_retrieval envA (analyze_query "Alpha")
        (10 / 3)).1).map RetrievalResult.score = [1 - 1/5] := rfl
    rw [hm]
    simp only [npMean, List.sum_cons, List.sum_nil, List.length_cons, List.length_nil]
    norm_num

/-- Witness for C1: with one strong vector hit (score 0.8) the adaptive
strategy takes the supplement branch. -/
theorem C1_adaptive_escalation_witness :
    (0 < (vector_retrieval envA (analyze_query "Alpha") (10 / 3)).1.length
      ∧ 7/10 < npMean (((vector_retrieval envA (analyze_query "Alpha")
          (10 / 3)).1).map RetrievalResult.score))
    ∧ (retrieve envA "Alpha" (some RetrievalStrategy.adaptive) 10).results
        = ((vector_retrieval envA (analyze_query "Alpha") (10 / 3)).1
            ++ (graph_retrieval envA (analyze_query "Alpha") (10 / 3)).1).take 10 :=
  ⟨envA_good_path, (C1_adaptive_escalation envA "Alpha" 10).1 envA_good_path⟩

theorem retrieve_envA_adaptive :
    (retrieve envA "Alpha" (some RetrievalStrategy.adaptive) 10).results
      = [vector_result_of entryA, graph_result_of "Alpha" (nodeA, edgeAB, nodeB)] := by
  have hres : (retrieve envA "Alpha" (some RetrievalStrategy.adaptive) 10).results
      = (adaptive_retrieval envA (analyze_query "Alpha") 10).1 := rfl
  rw [hres]
  simp only [adaptive_retrieval]
  rw [if_pos envA_good_path]
  rfl

/-- C5 counterexample: on the adaptive supplement path the orchestrator
concatenates the vector pass (score 0.8) with the graph pass (score 0.9)
without re-sorting, so the returned sequence is not ranked descending by
score. -/
theorem C5_counterexample :
    ¬ List.Sorted (fun a b : ℚ => a ≥ b)
        (((retrieve envA "Alpha" (some RetrievalStrategy.adaptive) 10).results).map
          RetrievalResult.score) := by
  rw [retrieve_envA_adaptive]
  have hm : ([vector_result_of entryA,
      graph_result_of "Alpha" (nodeA, edgeAB, nodeB)]).map RetrievalResult.score
      = [1 - 1/5, 9/10] := rfl
  rw [hm]
  simp only [List.sorted_cons, List.mem_singleton, List.mem_cons, List.not_mem_nil]
  norm_num

/-- C5 as amended: only the hybrid strategy sorts its merged results, so
its responses are ranked descending by score; the adaptive supplement path
returns the vector pass followed by the graph pass unsorted, and the
single-tool strategies keep tool order. -/
theorem C5_amended (env : ToolEnv) (q : String) (n : Nat) :
    List.Sorted (fun a b : ℚ => a ≥ b)
      (((retrieve env q (some RetrievalStrategy.hybrid) n).results).map
        RetrievalResult.score) := by
  have hres : (retrieve env q (some RetrievalStrategy.hybrid) n).results
      = (hybrid_retrieval env (analyze_query q) n).1 := rfl
  rw [hres]
  simp only [hybrid_retrieval]
  have hs : List.Sorted (fun a b : RetrievalResult => b.score ≤ a.score)
      (sort_by_score_desc (dedup_by_content
        ((vector_retrieval env (analyze_query q) (n / 2)).1
          ++ (graph_retrieval env (analyze_query q) (n / 2)).1))) :=
    List.sorted_insertionSort _ _
  have ht := List.Pairwise.sublist (List.take_sublist n _) hs
  exact ht.map _ (fun a b h => h)

theorem npMean_nonneg (l : List ℚ) (h : ∀ x ∈ l, 0 ≤ x) : 0 ≤ npMean l :=
  div_nonneg (List.sum_nonneg h) (Nat.cast_nonneg _)

theorem confidence_raw_nonneg (rs : List RetrievalResult) (q : RetrievalQuery)
    (hs : ∀ r ∈ rs, 0 ≤ r.score) (hc1 : q.complexity_score ≤ 1) :
    0 ≤ npMean (rs.map RetrievalResult.score) * (1/2)
      + ratMin ((rs.length : ℚ) / 10) 1 * (1/5)
      + (1 - q.complexity_score * (3/10)) * (1/5)
      + (((rs.map RetrievalResult.source_type).dedup.length : ℚ) / 3) * (1/10) := by
  have h1 : 0 ≤ npMean (rs.map RetrievalResult.score) := by
    refine npMean_nonneg _ ?_
    intro x hx
    obtain ⟨r, hr, rfl⟩ := List.mem_map.mp hx
    exact hs r hr
  have h2 : 0 ≤ ratMin ((rs.length : ℚ) / 10) 1 :=
    ratMin_nonneg (by positivity) (by norm_num)
  have h3 : 0 ≤ 1 - q.complexity_score * (3/10) := by linarith
  have h4 : 0 ≤ (((rs.map RetrievalResult.source_type).dedup.length : ℚ) / 3) := by
    positivity
  linarith

theorem calculate_confidence_nonneg (rs : List RetrievalResult)
    (q : RetrievalQuery) (hs : ∀ r ∈ rs, 0 ≤ r.score)
    (hc1 : q.complexity_score ≤ 1) : 0 ≤ calculate_confidence rs q := by
  rw [calculate_confidence]
  split
  · exact le_rfl
  · exact ratMin_nonneg (confidence_raw_nonneg rs q hs hc1) (by norm_num)

theorem calculate_confidence_le_one (rs : List RetrievalResult)
    (q : RetrievalQuery) : calculate_confidence rs q ≤ 1 := by
  rw [calculate_confidence]
  split
  · norm_num
  · exact ratMin_le_right _ _

theorem retrieve_confidence_eq (env : ToolEnv) (query_text : String)
    (s : Option RetrievalStrategy) (n : Nat) :
    (retrieve env query_text s n).confidence_score
      = calculate_confidence (retrieve env query_text s n).results
          (analyze_query query_text) := by
  cases s with
  | none =>
      rcases h : select_strategy (analyze_query query_text) <;>
        simp [retrieve, h]
  | some s' => cases s' <;> rfl

/-- C4: for a non-empty result list the confidence equals the weighted
formula clamped into the unit interval (the clamp lower bound is inactive:
with scores and complexity in range, the raw value is non-negative); for an
empty list it is zero; and the score lies in the unit interval, also for
the confidence returned by `retrieve` whenever the result scores are in
range. -/
theorem C4_confidence_formula (results : List RetrievalResult)
    (q : RetrievalQuery) (hs : ∀ r ∈ results, 0 ≤ r.score ∧ r.score ≤ 1)
    (hc : 0 ≤ q.complexity_score ∧ q.complexity_score ≤ 1) :
    (results ≠ [] →
      calculate_confidence results q
        = max 0 (min
            (npMean (results.map RetrievalResult.score) * (1/2)
              + min ((results.length : ℚ) / 10) 1 * (1/5)
              + (1 - q.complexity_score * (3/10)) * (1/5)
              + (((results.map RetrievalResult.source_type).dedup.length : ℚ) / 3)
                  * (1/10))
            1))
    ∧ (results = [] → calculate_confidence results q = 0)
    ∧ (0 ≤ calculate_confidence results q ∧ calculate_confidence results q ≤ 1)
    ∧ (∀ (env : ToolEnv) (query_text : String) (s : Option RetrievalStrategy)
        (n : Nat),
        (∀ r ∈ (retrieve env query_text s n).results, 0 ≤ r.score ∧ r.score ≤ 1) →
        0 ≤ (retrieve env query_text s n).confidence_score
          ∧ (retrieve env query_text s n).confidence_score ≤ 1) := by
  have hs0 : ∀ r ∈ results, 0 ≤ r.score := fun r hr => (hs r hr).1
  refine ⟨fun hne => ?_, fun he => ?_, ?_, ?_⟩
  · have hraw := confidence_raw_nonneg results q hs0 hc.2
    have hempty : results.isEmpty = false := by
      cases results with
      | nil => exact absurd rfl hne
      | cons a t => rfl
    rw [calculate_confidence, hempty]
    simp only [Bool.false_eq_true, if_false]
    rw [ratMin_eq_min] at hraw ⊢
    rw [ratMin_eq_min]
    exact (max_eq_right (le_min hraw (by norm_num))).symm
  · rw [he]; rfl
  · exact ⟨calculate_confidence_nonneg results q hs0 hc.2,
      calculate_confidence_le_one results q⟩
  · intro env query_text s n hs'
    have hcq : (analyze_query query_text).complexity_score ≤ 1 :=
      calculate_complexity_le_one query_text (extract_entities query_text)
    rw [retrieve_confidence_eq]
    exact ⟨calculate_confidence_nonneg _ _ (fun r hr => (hs' r hr).1) hcq,
      calculate_confidence_le_one _ _⟩

/-- Witness for C4 at one in-range result and a mid-complexity query. -/
theorem C4_confidence_formula_witness :
    (∀ r ∈ witness_results, 0 ≤ r.score ∧ r.score ≤ 1)
    ∧ 0 ≤ calculate_confidence witness_results witness_query
    ∧ calculate_confidence witness_results witness_query ≤ 1 := by
  have hs : ∀ r ∈ witness_results, 0 ≤ r.score ∧ r.score ≤ 1 := by
    intro r hr
    rw [witness_results, List.mem_singleton] at hr
    subst hr
    constructor <;> norm_num [witness_results]
  have hc : 0 ≤ witness_query.complexity_score
      ∧ witness_query.complexity_score ≤ 1 := by
    constructor <;> norm_num [witness_query]
  exact ⟨hs, (C4_confidence_formula witness_results witness_query hs hc).2.2.1.1,
    (C4_confidence_formula witness_results witness_query hs hc).2.2.1.2⟩

/-- C6 counterexample: with a populated backing store, a filter-only
retrieve call still returns no records at all (so in particular no records
scored 1.0): the orchestrator strategy is a placeholder that consults no
store. -/
theorem C6_counterexample :
    (retrieve envA "Filter entities with label Alpha"
        (some RetrievalStrategy.logical_filter) 10).results = []
    ∧ 0 < dbAB.nodes.length := by
  exact ⟨rfl, by decide⟩

/-- C6 as amended: the filter-only strategy of `retrieve` is a placeholder
that records its two chain steps and always returns an empty result list;
the FilterCondition-to-predicate translation exists only in
`LogicalFilterTool._build_filter_query`, which conjoins the rendered
conditions into a `MATCH (n)` Cypher query, and `LogicalFilterTool.search`
passes the backing-store rows through unchanged, without attaching any
score. -/
theorem C6_amended :
    (∀ (env : ToolEnv) (q : String) (n : Nat),
      (retrieve env q (some RetrievalStrategy.logical_filter) n).results = []
        ∧ (retrieve env q (some RetrievalStrategy.logical_filter) n).total_results = 0
        ∧ ChainStep.logical_filter_step ∈
            (retrieve env q (some RetrievalStrategy.logical_filter) n).reasoning_chain
        ∧ ChainStep.filter_results 0 ∈
            (retrieve env q (some RetrievalStrategy.logical_filter) n).reasoning_chain)
    ∧ (∀ (filters : List FilterCondition) (limit : Nat), filters ≠ [] →
        build_filter_query filters limit
          = String.intercalate "\n"
              ["MATCH (n)",
               "WHERE " ++ String.intercalate " AND "
                 (filters.map condition_to_cypher),
               "RETURN n LIMIT " ++ toString limit])
    ∧ (∀ (db : String → List (List (String × String)))
        (filters : List FilterCondition) (limit : Nat),
        logical_filter_search (some db) filters limit
          = db (build_filter_query filters limit)) := by
  refine ⟨fun env q n => ⟨rfl, rfl, ?_, ?_⟩, fun filters limit h => ?_, fun db filters limit => rfl⟩
  · simp [retrieve, filter_retrieval]
  · simp [retrieve, filter_retrieval]
  · cases filters with
    | nil => exact absurd rfl h
    | cons c t => rfl

/-- Witness for C6 at two concrete conditions. -/
theorem C6_amended_witness :
    witness_filters ≠ []
    ∧ build_filter_query witness_filters 10
        = String.intercalate "\n"
            ["MATCH (n)",
             "WHERE " ++ String.intercalate " AND "
               (witness_filters.map condition_to_cypher),
             "RETURN n LIMIT " ++ toString 10] :=
  ⟨by decide, C6_amended.2.1 witness_filters 10 (by decide)⟩

theorem vector_retrieval_empty (env : ToolEnv)
    (h : ∀ cq, env.chroma_client = some cq → ∀ k, ∃ err, cq k = Except.error err)
    (q : RetrievalQuery) (m : Nat) : (vector_retrieval env q m).1 = [] := by
  rcases hc : env.chroma_client with _ | cq
  · simp [vector_retrieval, hc]
  · obtain ⟨err, he⟩ := h cq hc m
    simp [vector_retrieval, hc, he]

theorem graph_retrieval_empty (env : ToolEnv)
    (h : ∀ d, env.neo4j_driver = some d → ∃ err, d = Except.error err)
    (q : RetrievalQuery) (m : Nat) : (graph_retrieval env q m).1 = [] := by
  rcases hd : env.neo4j_driver with _ | d
  · simp [graph_retrieval, hd]
  · obtain ⟨err, he⟩ := h d hd
    subst he
    simp [graph_retrieval, hd]

theorem hybrid_retrieval_empty (env : ToolEnv)
    (h1 : ∀ cq, env.chroma_client = some cq → ∀ k, ∃ err, cq k = Except.error err)
    (h2 : ∀ d, env.neo4j_driver = some d → ∃ err, d = Except.error err)
    (q : RetrievalQuery) (m : Nat) : (hybrid_retrieval env q m).1 = [] := by
  simp only [hybrid_retrieval]
  rw [vector_retrieval_empty env h1 q (m / 2), graph_retrieval_empty env h2 q (m / 2)]
  simp [dedup_by_content, dedup_by_content_aux, sort_by_score_desc]

theorem adaptive_retrieval_empty (env : ToolEnv)
    (h1 : ∀ cq, env.chroma_client = some cq → ∀ k, ∃ err, cq k = Except.error err)
    (h2 : ∀ d, env.neo4j_driver = some d → ∃ err, d = Except.error err)
    (q : RetrievalQuery) (m : Nat) : (adaptive_retrieval env q m).1 = [] := by
  simp only [adaptive_retrieval]
  rw [vector_retrieval_empty env h1 q (m / 3)]
  rw [if_neg (by simp)]
  rw [hybrid_retrieval_empty env h1 h2 q m]
  simp

theorem retrieve_results_empty (env : ToolEnv) (q : String) (n : Nat)
    (s : RetrievalStrategy)
    (h1 : ∀ cq, env.chroma_client = some cq → ∀ k, ∃ err, cq k = Except.error err)
    (h2 : ∀ d, env.neo4j_driver = some d → ∃ err, d = Except.error err) :
    (retrieve env q (some s) n).results = [] := by
  cases s
  · exact vector_retrieval_empty env h1 (analyze_query q) n
  · exact graph_retrieval_empty env h2 (analyze_query q) n
  · rfl
  · exact hybrid_retrieval_empty env h1 h2 (analyze_query q) n
  · exact adaptive_retrieval_empty env h1 h2 (analyze_query q) n

/-- C3: no failure escapes.  All-failing backends still yield a well-formed
empty response with confidence 0 for every strategy; a failing vector
backend under the hybrid strategy is recorded in the reasoning chain while
the graph tool still contributes the entire result list; and whenever the
body of `process_query` fails internally, the caught exception is turned
into a `RAGResponse` whose answer explains the failure and whose confidence
is 0.  Totality of `retrieve` and `process_query` (their return types are
plain response values, not `Except`) is the no-unhandled-exception
guarantee itself. -/
theorem C3_errors_never_escape :
    (∀ (env : ToolEnv) (q : String) (n : Nat) (s : RetrievalStrategy),
      (∀ cq, env.chroma_client = some cq → ∀ k, ∃ err, cq k = Except.error err) →
      (∀ d, env.neo4j_driver = some d → ∃ err, d = Except.error err) →
      (retrieve env q (some s) n).results = []
        ∧ (retrieve env q (some s) n).confidence_score = 0)
    ∧ (∀ (env : ToolEnv) (q : String) (n : Nat)
        (cq : Nat → Except String (List ChromaEntry)) (e : String),
        env.chroma_client = some cq → (∀ k, cq k = Except.error e) →
        ChainStep.vector_search_error e ∈
            (retrieve env q (some RetrievalStrategy.hybrid) n).reasoning_chain
          ∧ (retrieve env q (some RetrievalStrategy.hybrid) n).results
              = (sort_by_score_desc (dedup_by_content
                  ((graph_retrieval env (analyze_query q) (n / 2)).1))).take n)
    ∧ (∀ (env : StreamEnv) (mem : ConversationMemory) (q cid e : String),
        process_attempt env q
            (get_context (add_message mem cid (user_message q)) cid)
            (retrieve env.tool_env q (some RetrievalStrategy.adaptive) 10)
          = Except.error e →
        (process_query env mem q cid).1.answer = error_answer e
          ∧ (process_query env mem q cid).1.confidence_score = 0) := by
  refine ⟨fun env q n s h1 h2 => ?_, fun env q n cq e hc hk => ?_, fun env mem q cid e h => ?_⟩
  · refine ⟨retrieve_results_empty env q n s h1 h2, ?_⟩
    rw [retrieve_confidence_eq, retrieve_results_empty env q n s h1 h2]
    rfl
  · have hv : vector_retrieval env (analyze_query q) (n / 2)
        = ([], [ChainStep.vector_search, ChainStep.vector_search_error e]) := by
      simp [vector_retrieval, hc, hk (n / 2)]
    constructor
    · simp [retrieve, hybrid_retrieval, hv]
    · have hres : (retrieve env q (some RetrievalStrategy.hybrid) n).results
          = (hybrid_retrieval env (analyze_query q) n).1 := rfl
      rw [hres]
      simp only [hybrid_retrieval, hv]
      rfl
  · simp only [process_query]
    rw [h]
    exact ⟨rfl, rfl⟩

/-- Witness for C3: both backends raising leaves an empty zero-confidence
hybrid response with the vector failure recorded; and a run whose result
list is non-empty makes the reasoning engine raise internally, which
`process_query` converts into the apology answer at confidence 0. -/
theorem C3_errors_never_escape_witness :
    ((retrieve env_fail "Alpha" (some RetrievalStrategy.hybrid) 5).results = []
      ∧ (retrieve env_fail "Alpha" (some RetrievalStrategy.hybrid) 5).confidence_score = 0)
    ∧ ChainStep.vector_search_error "chroma connection refused" ∈
        (retrieve env_fail "Alpha" (some RetrievalStrategy.hybrid) 5).reasoning_chain
    ∧ (process_query streamEnvA (ConversationMemory.init 20 6) "Alpha" "conv").1.answer
        = error_answer reasoning_type_error_text
    ∧ (process_query streamEnvA (ConversationMemory.init 20 6) "Alpha" "conv").1.confidence_score
        = 0 := by
  have h1 : ∀ cq, env_fail.chroma_client = some cq →
      ∀ k, ∃ err, cq k = Except.error err := by
    intro cq hcq k
    exact ⟨"chroma connection refused", by rw [← Option.some.inj hcq]⟩
  have h2 : ∀ d, env_fail.neo4j_driver = some d → ∃ err, d = Except.error err := by
    intro d hd
    exact ⟨"neo4j connection refused", (Option.some.inj hd).symm⟩
  have hpa : process_attempt streamEnvA "Alpha"
      (get_context (add_message (ConversationMemory.init 20 6) "conv"
        (user_message "Alpha")) "conv")
      (retrieve streamEnvA.tool_env "Alpha" (some RetrievalStrategy.adaptive) 10)
      = Except.error reasoning_type_error_text := by
    have hte : streamEnvA.tool_env = envA := rfl
    rw [process_attempt, hte, retrieve_envA_adaptive]
    rfl
  have hp3 := C3_errors_never_escape.2.2 streamEnvA (ConversationMemory.init 20 6)
    "Alpha" "conv" reasoning_type_error_text hpa
  exact ⟨C3_errors_never_escape.1 env_fail "Alpha" 5 RetrievalStrategy.hybrid h1 h2,
    (C3_errors_never_escape.2.1 env_fail "Alpha" 5 _ "chroma connection refused"
      rfl (fun _ => rfl)).1, hp3.1, hp3.2⟩

end AgenticRAG
